import Mathlib

/-
Verification of the Charon application pipeline engine (charon/queue.py,
charon/daemon.py, charon/filler.py) against its specification.

Shallow embedding conventions:
* The SQLite jobs table is a list of Job records plus the AUTOINCREMENT
  counter (DBState).  Timestamps are opaque strings; each store operation
  receives the current time as an explicit argument.
* Python None for a nullable column is Option.none; Python truthiness of a
  string-or-None value (None and the empty string are falsy) is `truthy`.
* The site adapter (FormFiller subclass) is abstracted by a function
  giving the outcome of each attempt: either an exception with a message
  or an explicit result dict with a success flag and optional error, which
  is exactly the interface FormFiller.run observes per loop iteration.
* External collaborators of process_job (tailor_resume, find_resume) are
  abstracted by their Option String results, as in the spec they are
  opaque capabilities.
-/

namespace Charon

/-- One row of the jobs table (charon/queue.py, CREATE TABLE jobs). -/
structure Job where
  id : Nat
  company : String
  role : String
  url : String
  platform : Option String
  jd_text : Option String
  profile : Option String
  status : String
  resume_path : Option String
  error : Option String
  source : Option String
  scraped_at : Option String
  submitted_at : Option String
  created_at : String
  updated_at : String
deriving DecidableEq

/-- The jobs table plus the AUTOINCREMENT counter (first assigned id is 1). -/
structure DBState where
  jobs : List Job
  nextId : Nat
deriving DecidableEq

/-- Python truthiness of a nullable string: None and the empty string are
falsy, every other string is truthy. -/
def truthy : Option String → Bool
  | none => false
  | some s => !(s == "")

/-- queue.get_job: SELECT * FROM jobs WHERE id = ? (first matching row). -/
def get_job (db : DBState) (job_id : Nat) : Option Job :=
  db.jobs.find? (fun j => j.id == job_id)

/-- The row INSERTed by queue.add_job: the given columns, scraped_at set to
the insertion time, status defaulted to "scraped", created_at and
updated_at defaulted to the current time, all other columns NULL. -/
def insertedJob (db : DBState) (company role : Option String) (url : String)
    (platform jd_text : Option String) (source : String) (now : String) : Job :=
  { id := db.nextId
    company := company.getD ""   -- on the insert path company is some value
    role := role.getD ""         -- on the insert path role is some value
    url := url
    platform := platform
    jd_text := jd_text
    profile := none
    status := "scraped"
    resume_path := none
    error := none
    source := some source
    scraped_at := some now
    submitted_at := none
    created_at := now
    updated_at := now }

/-- queue.add_job: INSERT the new row; on sqlite3.IntegrityError (UNIQUE url
violated, or NOT NULL violated by a None company or role) fall back to a
SELECT by url, returning the found id or the sentinel -1.  Returns the new
store state and the returned id. -/
def add_job (db : DBState) (company role : Option String) (url : String)
    (platform jd_text : Option String) (source : String) (now : String) :
    DBState × Int :=
  if db.jobs.any (fun j => j.url == url) = true ∨ company = none ∨ role = none then
    -- INSERT raised IntegrityError; recovery lookup by url
    match db.jobs.find? (fun j => j.url == url) with
    | some j => (db, (j.id : Int))
    | none => (db, -1)
  else
    ({ jobs := db.jobs ++ [insertedJob db company role url platform jd_text source now]
       nextId := db.nextId + 1 },
     (db.nextId : Int))

/-- The per-row effect of queue.update_status: status and updated_at are
always set; error and resume_path are set only when the argument is not
None; submitted_at is set exactly when the new status is "submitted". -/
def applyUpdate (j : Job) (status : String) (error resume_path : Option String)
    (now : String) : Job :=
  { j with
    status := status
    updated_at := now
    error := error.or j.error
    resume_path := resume_path.or j.resume_path
    submitted_at := if status = "submitted" then some now else j.submitted_at }

/-- queue.update_status: UPDATE jobs SET ... WHERE id = ?. -/
def update_status (db : DBState) (job_id : Nat) (status : String)
    (error resume_path : Option String) (now : String) : DBState :=
  { db with jobs := db.jobs.map (fun j =>
      if j.id == job_id then applyUpdate j status error resume_path now else j) }

/-- queue.stats: SELECT status, COUNT(*) FROM jobs GROUP BY status. -/
def stats (db : DBState) : List (String × Nat) :=
  ((db.jobs.map Job.status).dedup).map
    (fun s => (s, db.jobs.countP (fun j => j.status == s)))

/-- daemon.get_filler: a filler class exists exactly for the four supported
platforms; every other platform value (including None, rendered "None" by
the f-string) resolves to no handler. -/
def get_filler (platform : Option String) : Bool :=
  platform == some "lever" || platform == some "greenhouse" ||
    platform == some "ashby" || platform == some "workday"

/-- String rendering of the platform value used in the error message
f"Unsupported platform: \x7bplatform\x7d" (Python str(None) = "None"). -/
def platformName : Option String → String
  | some p => p
  | none => "None"

/-- Outcome of one adapter attempt as observed by FormFiller.run: either the
attempt body raised (exn, with str(e)) or fill returned a result dict with
a success flag and an optional error value. -/
inductive AttemptOutcome where
  | exn (msg : String)
  | res (success : Bool) (error : Option String)

/-- The part of the adapter result dict that process_job reads. -/
structure FillResult where
  success : Bool
  error : Option String
deriving DecidableEq

/-- The retry loop of FormFiller.run: `for attempt in range(max_retries + 1)`.
An attempt that raises records last_error and continues; a returned result
dict ends the loop immediately (the early return is taken whether or not
the result was successful).  When the loop exhausts, the failure dict with
the last error is returned.  Arguments: i is the next attempt index,
lastError the last recorded exception message, and the Nat argument the
number of loop iterations left.  The returned Nat counts adapter attempts
actually started. -/
def runFrom (attempts : Nat → AttemptOutcome) (i : Nat) (lastError : Option String) :
    Nat → FillResult × Nat
  | 0 => (⟨false, lastError⟩, i)
  | remaining + 1 =>
    match attempts i with
    | .res s e => (⟨s, e⟩, i + 1)
    | .exn m => runFrom attempts (i + 1) (some m) remaining

/-- FormFiller.run with its retry budget (default max_retries = 2). -/
def runFiller (attempts : Nat → AttemptOutcome) (maxRetries : Nat) : FillResult × Nat :=
  runFrom attempts 0 none (maxRetries + 1)

/-- Step 1 of daemon.process_job: resolve a resume artifact, possibly
transitioning through "tailoring" and into "ready".  tailorResult and
findResumeResult are the outcomes of the external collaborators
tailor_resume and find_resume.  Returns the updated store and the resolved
resume_path value. -/
def resolve_resume (db : DBState) (job : Job)
    (tailorResult findResumeResult : Option String) (now : String) :
    DBState × Option String :=
  if truthy job.resume_path = false ∧ truthy job.jd_text = true then
    -- update_status(job_id, "tailoring"); resume_path = await tailor_resume(job)
    if truthy tailorResult = true then
      (update_status (update_status db job.id "tailoring" none none now)
        job.id "ready" none tailorResult now, tailorResult)
    else
      -- fall back to base resume
      if truthy findResumeResult = true then
        (update_status (update_status db job.id "tailoring" none none now)
          job.id "ready" none findResumeResult now, findResumeResult)
      else
        (update_status db job.id "tailoring" none none now, findResumeResult)
  else if truthy job.resume_path = false then
    (db, findResumeResult)
  else
    (db, job.resume_path)

/-- daemon.process_job: resolve a resume, then (unless dry_run) resolve the
platform adapter and run it with retry budget 2.  Returns the updated
store, the boolean result, and the number of adapter attempts started
(0 when the adapter is never invoked). -/
def process_job (db : DBState) (job : Job)
    (tailorResult findResumeResult : Option String)
    (adapter : Nat → AttemptOutcome) (dry_run : Bool) (now : String) :
    DBState × Bool × Nat :=
  if truthy (resolve_resume db job tailorResult findResumeResult now).2 = false then
    (update_status (resolve_resume db job tailorResult findResumeResult now).1
      job.id "failed" (some "No resume PDF available") none now, false, 0)
  else if dry_run = true then
    ((resolve_resume db job tailorResult findResumeResult now).1, true, 0)
  else if get_filler job.platform = false then
    (update_status (resolve_resume db job tailorResult findResumeResult now).1
      job.id "manual"
      (some ("Unsupported platform: " ++ platformName job.platform)) none now,
     false, 0)
  else
    if (runFiller adapter 2).1.success = true then
      (update_status
        (update_status (resolve_resume db job tailorResult findResumeResult now).1
          job.id "filling" none none now)
        job.id "ready" none
        (resolve_resume db job tailorResult findResumeResult now).2 now,
       true, (runFiller adapter 2).2)
    else
      (update_status
        (update_status (resolve_resume db job tailorResult findResumeResult now).1
          job.id "filling" none none now)
        job.id "failed"
        (some ((runFiller adapter 2).1.error.getD "Unknown error")) none now,
       false, (runFiller adapter 2).2)

/-- How one iteration of the run_queue loop ends: process_job returned a
boolean, or raised an unexpected exception (caught by the loop). -/
inductive JobResult where
  | ok (b : Bool)
  | exn (msg : String)

/-- The counters dict returned by daemon.run_queue. -/
structure RunCounters where
  processed : Nat
  success : Nat
  failed : Nat
deriving DecidableEq

/-- One iteration of the run_queue loop: processed always increments and
exactly one of success or failed increments; the except-branch (unexpected
exception from process_job) counts the job as failed. -/
def run_queue_step (outcome : Job → JobResult) (c : RunCounters) (job : Job) :
    RunCounters :=
  match outcome job with
  | .ok true => ⟨c.processed + 1, c.success + 1, c.failed⟩
  | .ok false => ⟨c.processed + 1, c.success, c.failed + 1⟩
  | .exn _ => ⟨c.processed + 1, c.success, c.failed + 1⟩

/-- daemon.run_queue: over the fetched list of approved jobs (empty list
returns all-zero counters; otherwise truncated to max_jobs when positive),
each job increments processed, and success or failed according to the
process_job outcome; an unexpected exception is caught and counted as
failed. -/
def run_queue (jobs : List Job) (max_jobs : Nat) (outcome : Job → JobResult) :
    RunCounters :=
  if jobs.isEmpty = true then ⟨0, 0, 0⟩
  else
    (if max_jobs > 0 then jobs.take max_jobs else jobs).foldl
      (run_queue_step outcome) ⟨0, 0, 0⟩

/-- The inner sleep of daemon.daemon_loop:
`for _ in range(interval): if not running: break; await asyncio.sleep(1)`.
running gives the value of the shutdown flag at each successive check; the
result is the number of one-second sleeps performed. -/
def sleep_checks (running : Nat → Bool) (t : Nat) : Nat → Nat
  | 0 => 0
  | n + 1 => if running t then sleep_checks running (t + 1) n + 1 else 0

/-- daemon.daemon_loop abstracted over a trace of shutdown-flag readings
(indexed by successive check instants) and of queue contents; fuel bounds
the number of outer iterations modelled.  Returns the check instants at
which a drain (run_queue call) started. -/
def daemon_run (running hasApproved : Nat → Bool) (interval : Nat) :
    Nat → Nat → List Nat
  | 0, _ => []
  | fuel + 1, t =>
    if running t then
      (if hasApproved t then [t] else []) ++
        daemon_run running hasApproved interval fuel
          (t + 1 + sleep_checks running (t + 1) interval)
    else []

/-- Concrete jobs and stores used by concrete-input theorems. -/
def job0 : Job :=
  { id := 1, company := "Acme", role := "Eng", url := "https://x.test/1"
    platform := some "lever", jd_text := some "JD text", profile := none
    status := "approved", resume_path := none, error := none
    source := some "manual", scraped_at := some "t0", submitted_at := none
    created_at := "t0", updated_at := "t0" }

def db0 : DBState := ⟨[job0], 2⟩

def job1 : Job := { job0 with resume_path := some "/resume.pdf" }

def db1 : DBState := ⟨[job1], 2⟩

/-- Mapping a function that does not change the predicate commutes with
find?. -/
theorem find?_map_pred {α : Type} (g : α → α) (p : α → Bool)
    (h : ∀ a, p (g a) = p a) :
    ∀ l : List α, (l.map g).find? p = (l.find? p).map g := by
  intro l
  induction l with
  | nil => rfl
  | cons a l ih =>
    simp only [List.map_cons, List.find?]
    rw [h a]
    cases hp : p a <;> simp [ih]

/-- applyUpdate never changes the id of a row. -/
theorem applyUpdate_id (j : Job) (status : String) (error resume_path : Option String)
    (now : String) : (applyUpdate j status error resume_path now).id = j.id := rfl

/-- Looking up the updated id after update_status returns the row with the
per-row update applied. -/
theorem get_job_update_status (db : DBState) (jid : Nat) (status : String)
    (error resume_path : Option String) (now : String) (j : Job)
    (h : get_job db jid = some j) :
    get_job (update_status db jid status error resume_path now) jid
      = some (applyUpdate j status error resume_path now) := by
  have hid : ∀ a : Job,
      ((if a.id == jid then applyUpdate a status error resume_path now else a).id == jid)
        = (a.id == jid) := by
    intro a
    by_cases ha : (a.id == jid) = true
    · simp [ha, applyUpdate_id]
    · simp [ha] at *
  unfold get_job update_status at *
  rw [find?_map_pred _ _ hid, h]
  have hj := List.find?_some h
  simp only at hj
  simp [hj]
  intro hc
  exact absurd (by simpa using hj) hc

/-- After the resume-resolution step the job row still exists and its
status is unchanged or one of the two statuses this step writes
("tailoring", "ready"). -/
theorem get_job_resolve_resume (db : DBState) (job : Job)
    (tailorResult findResumeResult : Option String) (now : String) (j0 : Job)
    (h : get_job db job.id = some j0) :
    ∃ j1, get_job (resolve_resume db job tailorResult findResumeResult now).1 job.id
        = some j1
      ∧ (j1.status = j0.status ∨ j1.status = "tailoring" ∨ j1.status = "ready") := by
  unfold resolve_resume
  split
  · split
    · exact ⟨_, get_job_update_status _ _ _ _ _ _ _
        (get_job_update_status _ _ _ _ _ _ _ h), Or.inr (Or.inr rfl)⟩
    · split
      · exact ⟨_, get_job_update_status _ _ _ _ _ _ _
          (get_job_update_status _ _ _ _ _ _ _ h), Or.inr (Or.inr rfl)⟩
      · exact ⟨_, get_job_update_status _ _ _ _ _ _ _ h, Or.inr (Or.inl rfl)⟩
  · split
    · exact ⟨j0, h, Or.inl rfl⟩
    · exact ⟨j0, h, Or.inl rfl⟩

/-- Store states reachable from the empty store by add_job and
update_status calls. -/
inductive Reachable : DBState → Prop
  | init : Reachable ⟨[], 1⟩
  | add (db : DBState) (company role : Option String) (url : String)
      (platform jd_text : Option String) (source now : String) :
      Reachable db →
      Reachable (add_job db company role url platform jd_text source now).1
  | upd (db : DBState) (job_id : Nat) (status : String)
      (error resume_path : Option String) (now : String) :
      Reachable db →
      Reachable (update_status db job_id status error resume_path now)

/-- add_job when some row already matches the url (or the insert otherwise
fails) returns the id of the first row found by the recovery lookup and
leaves the store unchanged. -/
theorem add_job_found (db : DBState) (company role : Option String) (url : String)
    (platform jd_text : Option String) (source now : String) (j : Job)
    (hf : db.jobs.find? (fun j => j.url == url) = some j) :
    add_job db company role url platform jd_text source now = (db, (j.id : Int)) := by
  have hp := List.find?_some hf
  simp only at hp
  have hany : db.jobs.any (fun j => j.url == url) = true :=
    List.any_eq_true.mpr ⟨j, List.mem_of_find?_eq_some hf, hp⟩
  rw [add_job, if_pos (Or.inl hany), hf]

/-- add_job on the successful INSERT path appends the new row and returns
the fresh id. -/
theorem add_job_insert (db : DBState) (company role : Option String) (url : String)
    (platform jd_text : Option String) (source now : String)
    (hc : ¬(db.jobs.any (fun j => j.url == url) = true ∨ company = none ∨ role = none)) :
    add_job db company role url platform jd_text source now
      = ({ jobs := db.jobs ++ [insertedJob db company role url platform jd_text source now]
           nextId := db.nextId + 1 },
         (db.nextId : Int)) := by
  rw [add_job, if_neg hc]

/-- C2: adding the same URL twice is an idempotent upsert.  Provided the
first add_job call did not return the failure sentinel -1, a second
add_job call with the same URL (and arbitrary other arguments) returns
exactly the same id and leaves the whole store, hence every field of the
original job record, unchanged: no second record, no error. -/
theorem add_job_idempotent (db : DBState) (company role : Option String)
    (url : String) (platform jd_text : Option String) (source now : String)
    (company2 role2 : Option String) (platform2 jd_text2 : Option String)
    (source2 now2 : String)
    (h : (add_job db company role url platform jd_text source now).2 ≠ -1) :
    add_job (add_job db company role url platform jd_text source now).1
        company2 role2 url platform2 jd_text2 source2 now2
      = ((add_job db company role url platform jd_text source now).1,
         (add_job db company role url platform jd_text source now).2) := by
  by_cases hc : db.jobs.any (fun j => j.url == url) = true ∨ company = none ∨ role = none
  · -- first call resolved an existing row (or failed, excluded by h)
    cases hf : db.jobs.find? (fun j => j.url == url) with
    | none =>
      exfalso
      apply h
      rw [add_job, if_pos hc, hf]
    | some j =>
      rw [add_job_found db company role url platform jd_text source now j hf]
      exact add_job_found db company2 role2 url platform2 jd_text2 source2 now2 j hf
  · -- first call inserted a fresh row
    rw [add_job_insert db company role url platform jd_text source now hc]
    have h0 : db.jobs.find? (fun j => j.url == url) = none := by
      rw [List.find?_eq_none]
      intro x hx hpx
      exact hc (Or.inl (List.any_eq_true.mpr ⟨x, hx, hpx⟩))
    have hf2 : (db.jobs ++ [insertedJob db company role url platform jd_text source now]).find?
        (fun j => j.url == url)
        = some (insertedJob db company role url platform jd_text source now) := by
      rw [List.find?_append, h0]
      simp [insertedJob]
    exact add_job_found
      { jobs := db.jobs ++ [insertedJob db company role url platform jd_text source now]
        nextId := db.nextId + 1 }
      company2 role2 url platform2 jd_text2 source2 now2
      (insertedJob db company role url platform jd_text source now) hf2

/-- C2 witness: add a job to the empty store, then add the same URL again
with a different company; the id is the same and the store keeps the
original record. -/
theorem add_job_idempotent_witness :
    (add_job ⟨[], 1⟩ (some "Acme") (some "Eng") "https://x.test/1" none none "manual" "t0").2 ≠ -1
  ∧ add_job (add_job ⟨[], 1⟩ (some "Acme") (some "Eng") "https://x.test/1" none none "manual" "t0").1
        (some "Other") (some "Boss") "https://x.test/1" none none "manual" "t1"
      = ((add_job ⟨[], 1⟩ (some "Acme") (some "Eng") "https://x.test/1" none none "manual" "t0").1,
         (add_job ⟨[], 1⟩ (some "Acme") (some "Eng") "https://x.test/1" none none "manual" "t0").2) :=
  ⟨by decide,
   add_job_idempotent ⟨[], 1⟩ (some "Acme") (some "Eng") "https://x.test/1" none none
     "manual" "t0" (some "Other") (some "Boss") none none "manual" "t1" (by decide)⟩

/-- C9: when the INSERT fails for a reason other than a duplicate URL — a
None company or role violating NOT NULL — and no row with that URL exists,
the recovery lookup finds nothing, add_job returns the sentinel -1, and
the store is unchanged (no job record is created). -/
theorem add_job_not_null_sentinel (db : DBState) (company role : Option String)
    (url : String) (platform jd_text : Option String) (source now : String)
    (hn : company = none ∨ role = none)
    (hf : db.jobs.find? (fun j => j.url == url) = none) :
    add_job db company role url platform jd_text source now = (db, -1) := by
  rw [add_job, if_pos (Or.inr hn), hf]

/-- C9 witness: adding a job with a None company to the empty store returns
-1 and creates nothing. -/
theorem add_job_not_null_sentinel_witness :
    add_job ⟨[], 1⟩ none (some "Eng") "https://x.test/9" none none "manual" "t0"
      = (⟨[], 1⟩, -1) :=
  add_job_not_null_sentinel ⟨[], 1⟩ none (some "Eng") "https://x.test/9" none none
    "manual" "t0" (Or.inl rfl) rfl

/-- C5: update_status always sets status and updated_at, sets submitted_at
exactly when the new status is "submitted", merges the optional error and
resume_path arguments (a None argument keeps the stored value), and leaves
every other field of the job unchanged. -/
theorem update_status_fields (db : DBState) (jid : Nat) (status : String)
    (error resume_path : Option String) (now : String) (j : Job)
    (h : get_job db jid = some j) :
    ((get_job (update_status db jid status error resume_path now) jid).map Job.status
        = some status)
  ∧ ((get_job (update_status db jid status error resume_path now) jid).map Job.updated_at
        = some now)
  ∧ ((get_job (update_status db jid status error resume_path now) jid).map Job.submitted_at
        = some (if status = "submitted" then some now else j.submitted_at))
  ∧ ((get_job (update_status db jid status error resume_path now) jid).map Job.error
        = some (error.or j.error))
  ∧ ((get_job (update_status db jid status error resume_path now) jid).map Job.resume_path
        = some (resume_path.or j.resume_path))
  ∧ ((get_job (update_status db jid status error resume_path now) jid).map Job.id
        = some j.id)
  ∧ ((get_job (update_status db jid status error resume_path now) jid).map Job.company
        = some j.company)
  ∧ ((get_job (update_status db jid status error resume_path now) jid).map Job.role
        = some j.role)
  ∧ ((get_job (update_status db jid status error resume_path now) jid).map Job.url
        = some j.url)
  ∧ ((get_job (update_status db jid status error resume_path now) jid).map Job.platform
        = some j.platform)
  ∧ ((get_job (update_status db jid status error resume_path now) jid).map Job.jd_text
        = some j.jd_text)
  ∧ ((get_job (update_status db jid status error resume_path now) jid).map Job.profile
        = some j.profile)
  ∧ ((get_job (update_status db jid status error resume_path now) jid).map Job.source
        = some j.source)
  ∧ ((get_job (update_status db jid status error resume_path now) jid).map Job.scraped_at
        = some j.scraped_at)
  ∧ ((get_job (update_status db jid status error resume_path now) jid).map Job.created_at
        = some j.created_at) := by
  rw [get_job_update_status db jid status error resume_path now j h]
  exact ⟨rfl, rfl, rfl, rfl, rfl, rfl, rfl, rfl, rfl, rfl, rfl, rfl, rfl, rfl, rfl⟩

/-- C5 witness: a concrete transition to "submitted" on the store db1. -/
theorem update_status_fields_witness :
    ((get_job (update_status db1 1 "submitted" none (some "/new.pdf") "t5") 1).map Job.status
        = some "submitted")
  ∧ ((get_job (update_status db1 1 "submitted" none (some "/new.pdf") "t5") 1).map Job.updated_at
        = some "t5")
  ∧ ((get_job (update_status db1 1 "submitted" none (some "/new.pdf") "t5") 1).map Job.submitted_at
        = some (if ("submitted" : String) = "submitted" then some "t5" else job1.submitted_at))
  ∧ ((get_job (update_status db1 1 "submitted" none (some "/new.pdf") "t5") 1).map Job.error
        = some (Option.or none job1.error))
  ∧ ((get_job (update_status db1 1 "submitted" none (some "/new.pdf") "t5") 1).map Job.resume_path
        = some (Option.or (some "/new.pdf") job1.resume_path))
  ∧ ((get_job (update_status db1 1 "submitted" none (some "/new.pdf") "t5") 1).map Job.id
        = some job1.id)
  ∧ ((get_job (update_status db1 1 "submitted" none (some "/new.pdf") "t5") 1).map Job.company
        = some job1.company)
  ∧ ((get_job (update_status db1 1 "submitted" none (some "/new.pdf") "t5") 1).map Job.role
        = some job1.role)
  ∧ ((get_job (update_status db1 1 "submitted" none (some "/new.pdf") "t5") 1).map Job.url
        = some job1.url)
  ∧ ((get_job (update_status db1 1 "submitted" none (some "/new.pdf") "t5") 1).map Job.platform
        = some job1.platform)
  ∧ ((get_job (update_status db1 1 "submitted" none (some "/new.pdf") "t5") 1).map Job.jd_text
        = some job1.jd_text)
  ∧ ((get_job (update_status db1 1 "submitted" none (some "/new.pdf") "t5") 1).map Job.profile
        = some job1.profile)
  ∧ ((get_job (update_status db1 1 "submitted" none (some "/new.pdf") "t5") 1).map Job.source
        = some job1.source)
  ∧ ((get_job (update_status db1 1 "submitted" none (some "/new.pdf") "t5") 1).map Job.scraped_at
        = some job1.scraped_at)
  ∧ ((get_job (update_status db1 1 "submitted" none (some "/new.pdf") "t5") 1).map Job.created_at
        = some job1.created_at) :=
  update_status_fields db1 1 "submitted" none (some "/new.pdf") "t5" job1 (by decide)

/-- The stats counts sum to the row count for every store state. -/
theorem stats_sum (db : DBState) : ((stats db).map Prod.snd).sum = db.jobs.length := by
  unfold stats
  rw [List.map_map]
  have hfun : (Prod.snd ∘ fun s => (s, db.jobs.countP (fun j => j.status == s)))
      = fun s => (db.jobs.map Job.status).count s := by
    funext s
    simp only [Function.comp]
    rw [List.count, List.countP_map]
    rfl
  rw [hfun, List.sum_map_count_dedup_eq_length, List.length_map]

set_option linter.unusedVariables false in
/-- C7: for every store state reachable by any sequence of add_job and
update_status calls, the stats counts sum to the total number of rows.
(The property in fact holds for every store state; reachability is not
needed by the proof.) -/
theorem stats_sum_total (db : DBState) (h : Reachable db) :
    ((stats db).map Prod.snd).sum = db.jobs.length := stats_sum db

/-- C7 witness: the empty store is reachable and its stats sum to its row
count. -/
theorem stats_sum_total_witness :
    ((stats ⟨[], 1⟩).map Prod.snd).sum = (⟨[], 1⟩ : DBState).jobs.length :=
  stats_sum_total ⟨[], 1⟩ Reachable.init

/-- Folding the run_queue loop body adds the list length to processed and
to the sum success + failed. -/
theorem run_queue_fold (outcome : Job → JobResult) :
    ∀ (l : List Job) (c : RunCounters),
      (l.foldl (run_queue_step outcome) c).processed = c.processed + l.length
    ∧ (l.foldl (run_queue_step outcome) c).success
        + (l.foldl (run_queue_step outcome) c).failed
        = c.success + c.failed + l.length := by
  intro l
  induction l with
  | nil => intro c; simp
  | cons a l ih =>
    intro c
    rw [List.foldl_cons]
    obtain ⟨ih1, ih2⟩ := ih (run_queue_step outcome c a)
    constructor
    · rw [ih1]
      unfold run_queue_step
      cases outcome a with
      | ok b => cases b <;> simp <;> omega
      | exn m => simp; omega
    · rw [ih2]
      unfold run_queue_step
      cases outcome a with
      | ok b => cases b <;> simp <;> omega
      | exn m => simp; omega

/-- C10: run_queue processes every job of its (possibly truncated) list,
counting a job whose processing raised an unexpected exception as failed
and continuing, and its counters always satisfy
processed = success + failed = number of jobs attempted, which is at most
max_jobs when max_jobs is positive. -/
theorem run_queue_counters (jobs : List Job) (max_jobs : Nat)
    (outcome : Job → JobResult) :
    (run_queue jobs max_jobs outcome).processed
        = (run_queue jobs max_jobs outcome).success
          + (run_queue jobs max_jobs outcome).failed
  ∧ (run_queue jobs max_jobs outcome).processed
        = (if max_jobs > 0 then min max_jobs jobs.length else jobs.length) := by
  unfold run_queue
  by_cases he : jobs.isEmpty = true
  · rw [if_pos he]
    have hlen : jobs.length = 0 := by
      cases jobs with
      | nil => rfl
      | cons a l => simp [List.isEmpty] at he
    constructor
    · rfl
    · rw [hlen]
      simp
  · rw [if_neg he]
    obtain ⟨h1, h2⟩ := run_queue_fold outcome
      (if max_jobs > 0 then jobs.take max_jobs else jobs) ⟨0, 0, 0⟩
    constructor
    · rw [h1, h2]
      simp
    · rw [h1]
      by_cases hm : max_jobs > 0
      · rw [if_pos hm, if_pos hm, List.length_take]
        simp
      · rw [if_neg hm, if_neg hm]
        simp

/-- The sleep loop never performs more one-second sleeps than the loop
bound (the configured interval). -/
theorem sleep_checks_le (running : Nat → Bool) :
    ∀ (n t0 : Nat), sleep_checks running t0 n ≤ n := by
  intro n
  induction n with
  | zero => intro t0; exact Nat.le_refl 0
  | succ n ih =>
    intro t0
    rw [sleep_checks]
    by_cases h0 : running t0 = true
    · rw [if_pos h0]
      exact Nat.succ_le_succ (ih (t0 + 1))
    · rw [if_neg h0]
      exact Nat.zero_le _

/-- Once the shutdown flag reads false, the sleep loop performs no further
one-second sleep: if the flag is false at the j-th check after the loop
starts, at most j sleeps happen. -/
theorem sleep_checks_flag (running : Nat → Bool) :
    ∀ (n t0 j : Nat), running (t0 + j) = false → sleep_checks running t0 n ≤ j := by
  intro n
  induction n with
  | zero => intro t0 j _; exact Nat.zero_le j
  | succ n ih =>
    intro t0 j hj
    rw [sleep_checks]
    by_cases h0 : running t0 = true
    · rw [if_pos h0]
      cases j with
      | zero =>
        rw [Nat.add_zero, h0] at hj
        cases hj
      | succ j =>
        have hstep : running (t0 + 1 + j) = false := by
          have : t0 + 1 + j = t0 + (j + 1) := by omega
          rw [this]
          exact hj
        exact Nat.succ_le_succ (ih (t0 + 1) j hstep)
    · rw [if_neg h0]
      exact Nat.zero_le j

/-- Every drain started by the daemon loop happens at a check instant where
the shutdown flag still reads true; under a flag that stays false once
flipped, no drain starts at or after any instant where it is false. -/
theorem daemon_run_drains (running hasApproved : Nat → Bool) (interval : Nat)
    (hmono : ∀ a b : Nat, a ≤ b → running a = false → running b = false)
    (k : Nat) (hk : running k = false) :
    ∀ (fuel t : Nat), ∀ d ∈ daemon_run running hasApproved interval fuel t,
      running d = true ∧ d < k := by
  intro fuel
  induction fuel with
  | zero =>
    intro t d hd
    simp [daemon_run] at hd
  | succ fuel ih =>
    intro t d hd
    rw [daemon_run] at hd
    by_cases h0 : running t = true
    · rw [if_pos h0, List.mem_append] at hd
      cases hd with
      | inl h1 =>
        have hdt : d = t := by
          by_cases ha : hasApproved t = true
          · rw [if_pos ha] at h1
            simpa using h1
          · rw [if_neg ha] at h1
            cases h1
        subst hdt
        refine ⟨h0, ?_⟩
        by_contra hlt
        have hkd : k ≤ d := Nat.le_of_not_lt hlt
        rw [hmono k d hkd hk] at h0
        cases h0
      | inr h2 => exact ih _ d h2
    · rw [if_neg h0] at hd
      cases hd

/-- C8: the daemon sleeps in one-second increments, checking the shutdown
flag before each increment.  Over any trace of flag readings: once the
flag reads false at the j-th check of a sleep, at most j one-second sleeps
happen in it (so the loop leaves its sleep within the one-second check
granularity of the flip, regardless of the configured interval); a sleep
never exceeds interval increments; and, for a flag that stays false once
flipped (the signal handler only ever clears it), no drain ever starts at
or after an instant where the flag is false. -/
theorem daemon_shutdown_latency (running hasApproved : Nat → Bool)
    (interval fuel t k : Nat)
    (hmono : ∀ a b : Nat, a ≤ b → running a = false → running b = false)
    (hk : running k = false) :
    (∀ t0 j : Nat, running (t0 + j) = false → sleep_checks running t0 interval ≤ j)
  ∧ (∀ t0 : Nat, sleep_checks running t0 interval ≤ interval)
  ∧ (∀ d ∈ daemon_run running hasApproved interval fuel t,
      running d = true ∧ d < k) :=
  ⟨fun t0 j hj => sleep_checks_flag running interval t0 j hj,
   fun t0 => sleep_checks_le running interval t0,
   daemon_run_drains running hasApproved interval hmono k hk fuel t⟩

/-- C8 witness: with the flag already false, no sleep increment at all is
performed. -/
theorem daemon_shutdown_latency_witness :
    sleep_checks (fun _ => false) 7 1800 ≤ 0 :=
  (daemon_shutdown_latency (fun _ => false) (fun _ => true) 1800 3 0 2
    (fun _ _ _ _ => rfl) rfl).1 7 0 rfl

/-- An adapter whose every attempt raises runs all three attempts (budget
2 additional retries) and reports failure with the message of the last
attempt. -/
theorem runFiller_all_exn (msgs : Nat → String) :
    runFiller (fun i => AttemptOutcome.exn (msgs i)) 2
      = (⟨false, some (msgs 2)⟩, 3) := rfl

/-- An adapter whose first attempt returns an explicit unsuccessful result
ends the run immediately after one attempt: explicit results, unlike
exceptions, are never retried by FormFiller.run. -/
theorem runFiller_first_res (e : String) (rest : Nat → AttemptOutcome) :
    runFiller (fun i => if i = 0 then AttemptOutcome.res false (some e) else rest i) 2
      = (⟨false, some e⟩, 1) := rfl

/-- C1 (amended): when dry_run is off, process_job always leaves the job in
one of the statuses "ready", "failed", "manual"; and in every mode a job
that was not in "filling" before the call is not in "filling" after it
(dry_run returns before the filling transition, and every transition into
"filling" is followed by a transition into "ready" or "failed" before
returning, including on adapter-exception paths). -/
theorem process_job_post_status (db : DBState) (job : Job)
    (tailorResult findResumeResult : Option String)
    (adapter : Nat → AttemptOutcome) (dry_run : Bool) (now : String) (j0 : Job)
    (h : get_job db job.id = some j0) :
    (dry_run = false →
      ((get_job (process_job db job tailorResult findResumeResult adapter dry_run now).1
          job.id).map Job.status = some "ready"
       ∨ (get_job (process_job db job tailorResult findResumeResult adapter dry_run now).1
          job.id).map Job.status = some "failed"
       ∨ (get_job (process_job db job tailorResult findResumeResult adapter dry_run now).1
          job.id).map Job.status = some "manual"))
  ∧ (j0.status ≠ "filling" →
      (get_job (process_job db job tailorResult findResumeResult adapter dry_run now).1
          job.id).map Job.status ≠ some "filling") := by
  obtain ⟨j1, h1, hs1⟩ :=
    get_job_resolve_resume db job tailorResult findResumeResult now j0 h
  by_cases hres : truthy (resolve_resume db job tailorResult findResumeResult now).2 = false
  · rw [process_job, if_pos hres, get_job_update_status _ _ _ _ _ _ _ h1]
    constructor
    · intro _
      right; left; rfl
    · intro _ hcon
      simp [applyUpdate] at hcon
  · rw [process_job, if_neg hres]
    by_cases hdry : dry_run = true
    · rw [if_pos hdry, h1]
      constructor
      · intro hdf
        rw [hdf] at hdry
        cases hdry
      · intro h0f hcon
        simp only [Option.map_some'] at hcon
        have hj1 : j1.status = "filling" := by
          injection hcon
        rcases hs1 with hA | hB | hC
        · exact h0f (hA ▸ hj1)
        · rw [hB] at hj1
          exact absurd hj1 (by decide)
        · rw [hC] at hj1
          exact absurd hj1 (by decide)
    · rw [if_neg hdry]
      by_cases hplat : get_filler job.platform = false
      · rw [if_pos hplat, get_job_update_status _ _ _ _ _ _ _ h1]
        constructor
        · intro _
          right; right; rfl
        · intro _ hcon
          simp [applyUpdate] at hcon
      · rw [if_neg hplat]
        by_cases hsucc : (runFiller adapter 2).1.success = true
        · rw [if_pos hsucc, get_job_update_status _ _ _ _ _ _ _
            (get_job_update_status _ _ _ _ _ _ _ h1)]
          constructor
          · intro _
            left; rfl
          · intro _ hcon
            simp [applyUpdate] at hcon
        · rw [if_neg hsucc, get_job_update_status _ _ _ _ _ _ _
            (get_job_update_status _ _ _ _ _ _ _ h1)]
          constructor
          · intro _
            right; left; rfl
          · intro _ hcon
            simp [applyUpdate] at hcon

/-- C1 counterexample: a dry-run call on an approved job with a recorded
resume returns true and leaves the status "approved", which is none of
"ready", "failed", "manual" — the unrestricted claim fails for dry runs. -/
theorem process_job_post_status_ce :
    (process_job db1 job1 none none (fun _ => AttemptOutcome.res true none) true "t1").2.1
      = true
  ∧ (get_job (process_job db1 job1 none none (fun _ => AttemptOutcome.res true none)
        true "t1").1 1).map Job.status = some "approved"
  ∧ ("approved" ≠ "ready" ∧ "approved" ≠ "failed" ∧ "approved" ≠ "manual") := by
  decide

/-- C1 witness: a non-dry-run call on db1 with a succeeding adapter. -/
theorem process_job_post_status_witness :
    ((false = false) →
      ((get_job (process_job db1 job1 none none (fun _ => AttemptOutcome.res true none)
          false "t1").1 job1.id).map Job.status = some "ready"
       ∨ (get_job (process_job db1 job1 none none (fun _ => AttemptOutcome.res true none)
          false "t1").1 job1.id).map Job.status = some "failed"
       ∨ (get_job (process_job db1 job1 none none (fun _ => AttemptOutcome.res true none)
          false "t1").1 job1.id).map Job.status = some "manual"))
  ∧ (job1.status ≠ "filling" →
      (get_job (process_job db1 job1 none none (fun _ => AttemptOutcome.res true none)
          false "t1").1 job1.id).map Job.status ≠ some "filling") := by
  have H := process_job_post_status db1 job1 none none
    (fun _ => AttemptOutcome.res true none) false "t1" job1 (by decide)
  exact ⟨H.1, H.2⟩

/-- C4 (amended): provided a resume artifact resolves and the call is not a
dry run, a job whose platform has no filler class is transitioned to
"manual" with the error "Unsupported platform: " followed by the platform
name, process_job returns false, and zero adapter attempts are consumed
(the result does not depend on the adapter at all).  Without a resolvable
resume the job instead ends "failed" before the platform check. -/
theorem process_job_unsupported_platform (db : DBState) (job : Job)
    (tailorResult findResumeResult : Option String)
    (adapter : Nat → AttemptOutcome) (now : String) (j0 : Job)
    (h : get_job db job.id = some j0)
    (hres : truthy (resolve_resume db job tailorResult findResumeResult now).2 = true)
    (hplat : get_filler job.platform = false) :
    (process_job db job tailorResult findResumeResult adapter false now).2 = (false, 0)
  ∧ (get_job (process_job db job tailorResult findResumeResult adapter false now).1
        job.id).map Job.status = some "manual"
  ∧ (get_job (process_job db job tailorResult findResumeResult adapter false now).1
        job.id).map Job.error
      = some (some ("Unsupported platform: " ++ platformName job.platform)) := by
  obtain ⟨j1, h1, _⟩ :=
    get_job_resolve_resume db job tailorResult findResumeResult now j0 h
  have hres' : ¬ truthy (resolve_resume db job tailorResult findResumeResult now).2
      = false := by
    rw [hres]
    exact fun hc => by cases hc
  rw [process_job, if_neg hres', if_neg (fun hc : (false = true) => by cases hc),
    if_pos hplat, get_job_update_status _ _ _ _ _ _ _ h1]
  exact ⟨rfl, rfl, rfl⟩

/-- C4 counterexample: a job on the unsupported platform "icims" for which
no resume resolves ends in status "failed" (error "No resume PDF
available"), not "manual" — refuting the "never failed, always manual"
universal claim. -/
theorem process_job_unsupported_platform_ce :
    (get_job (process_job ⟨[{ job0 with platform := some "icims", jd_text := none }], 2⟩
        { job0 with platform := some "icims", jd_text := none } none none
        (fun _ => AttemptOutcome.res true none) false "t1").1 1).map Job.status
      = some "failed"
  ∧ (process_job ⟨[{ job0 with platform := some "icims", jd_text := none }], 2⟩
        { job0 with platform := some "icims", jd_text := none } none none
        (fun _ => AttemptOutcome.res true none) false "t1").2.1 = false := by
  decide

/-- C4 witness: an "icims" job with a recorded resume goes to "manual" with
the platform named in the error, returning false with zero attempts. -/
theorem process_job_unsupported_platform_witness :
    (process_job ⟨[{ job1 with platform := some "icims" }], 2⟩
        { job1 with platform := some "icims" } none none
        (fun _ => AttemptOutcome.exn "never called") false "t1").2 = (false, 0)
  ∧ (get_job (process_job ⟨[{ job1 with platform := some "icims" }], 2⟩
        { job1 with platform := some "icims" } none none
        (fun _ => AttemptOutcome.exn "never called") false "t1").1
        { job1 with platform := some "icims" }.id).map Job.status = some "manual"
  ∧ (get_job (process_job ⟨[{ job1 with platform := some "icims" }], 2⟩
        { job1 with platform := some "icims" } none none
        (fun _ => AttemptOutcome.exn "never called") false "t1").1
        { job1 with platform := some "icims" }.id).map Job.error
      = some (some ("Unsupported platform: "
          ++ platformName { job1 with platform := some "icims" }.platform)) :=
  process_job_unsupported_platform ⟨[{ job1 with platform := some "icims" }], 2⟩
    { job1 with platform := some "icims" } none none
    (fun _ => AttemptOutcome.exn "never called") "t1"
    { job1 with platform := some "icims" } (by decide) (by decide) (by decide)

/-- C3 (amended): with the default retry budget of 2 additional retries,
and a job whose resume resolves, supported platform, no dry run: an
adapter whose every attempt raises an exception ends the job in "failed"
after exactly 3 attempts with the last attempt message persisted as the
error; but an explicit unsuccessful result is not retried — an adapter
whose first attempt returns an explicit failure ends the job in "failed"
after exactly 1 attempt, with that result error persisted. -/
theorem process_job_failure_retry (db : DBState) (job : Job)
    (tailorResult findResumeResult : Option String) (now : String) (j0 : Job)
    (h : get_job db job.id = some j0)
    (hres : truthy (resolve_resume db job tailorResult findResumeResult now).2 = true)
    (hplat : get_filler job.platform = true) :
    (∀ msgs : Nat → String,
      (process_job db job tailorResult findResumeResult
          (fun i => AttemptOutcome.exn (msgs i)) false now).2 = (false, 3)
    ∧ (get_job (process_job db job tailorResult findResumeResult
          (fun i => AttemptOutcome.exn (msgs i)) false now).1 job.id).map Job.status
        = some "failed"
    ∧ (get_job (process_job db job tailorResult findResumeResult
          (fun i => AttemptOutcome.exn (msgs i)) false now).1 job.id).map Job.error
        = some (some (msgs 2)))
  ∧ (∀ (e : String) (rest : Nat → AttemptOutcome),
      (process_job db job tailorResult findResumeResult
          (fun i => if i = 0 then AttemptOutcome.res false (some e) else rest i)
          false now).2 = (false, 1)
    ∧ (get_job (process_job db job tailorResult findResumeResult
          (fun i => if i = 0 then AttemptOutcome.res false (some e) else rest i)
          false now).1 job.id).map Job.status = some "failed"
    ∧ (get_job (process_job db job tailorResult findResumeResult
          (fun i => if i = 0 then AttemptOutcome.res false (some e) else rest i)
          false now).1 job.id).map Job.error = some (some e)) := by
  obtain ⟨j1, h1, _⟩ :=
    get_job_resolve_resume db job tailorResult findResumeResult now j0 h
  have hres' : ¬ truthy (resolve_resume db job tailorResult findResumeResult now).2
      = false := by
    rw [hres]
    exact fun hc => by cases hc
  have hplat' : ¬ get_filler job.platform = false := by
    rw [hplat]
    exact fun hc => by cases hc
  constructor
  · intro msgs
    have hrun := runFiller_all_exn msgs
    have hsucc : ¬ (runFiller (fun i => AttemptOutcome.exn (msgs i)) 2).1.success
        = true := by
      rw [hrun]
      exact fun hc => by cases hc
    rw [process_job, if_neg hres', if_neg (fun hc : (false = true) => by cases hc),
      if_neg hplat', if_neg hsucc, hrun,
      get_job_update_status _ _ _ _ _ _ _ (get_job_update_status _ _ _ _ _ _ _ h1)]
    exact ⟨rfl, rfl, rfl⟩
  · intro e rest
    have hrun := runFiller_first_res e rest
    have hsucc : ¬ (runFiller
        (fun i => if i = 0 then AttemptOutcome.res false (some e) else rest i) 2).1.success
        = true := by
      rw [hrun]
      exact fun hc => by cases hc
    rw [process_job, if_neg hres', if_neg (fun hc : (false = true) => by cases hc),
      if_neg hplat', if_neg hsucc, hrun,
      get_job_update_status _ _ _ _ _ _ _ (get_job_update_status _ _ _ _ _ _ _ h1)]
    exact ⟨rfl, rfl, rfl⟩

/-- C3 counterexample: an adapter that fails every attempt with an explicit
unsuccessful result (not an exception) consumes exactly 1 attempt, not
R + 1 = 3: FormFiller.run returns any explicit result immediately. -/
theorem process_job_failure_retry_ce :
    (process_job db1 job1 none none
        (fun _ => AttemptOutcome.res false (some "form rejected")) false "t1").2.2 = 1
  ∧ ¬ (process_job db1 job1 none none
        (fun _ => AttemptOutcome.res false (some "form rejected")) false "t1").2.2
      = 2 + 1
  ∧ (get_job (process_job db1 job1 none none
        (fun _ => AttemptOutcome.res false (some "form rejected")) false "t1").1
        1).map Job.status = some "failed" := by
  decide

/-- C3 witness: the all-exceptions clause applied on db1 with concrete
messages, and the explicit-failure clause with a concrete error. -/
theorem process_job_failure_retry_witness :
    ((process_job db1 job1 none none
        (fun i => AttemptOutcome.exn (String.append "boom " (toString i))) false "t1").2
      = (false, 3)
    ∧ (get_job (process_job db1 job1 none none
        (fun i => AttemptOutcome.exn (String.append "boom " (toString i))) false "t1").1
        job1.id).map Job.status = some "failed"
    ∧ (get_job (process_job db1 job1 none none
        (fun i => AttemptOutcome.exn (String.append "boom " (toString i))) false "t1").1
        job1.id).map Job.error
      = some (some (String.append "boom " (toString 2)))) := by
  have H := process_job_failure_retry db1 job1 none none "t1" job1
    (by decide) (by decide) (by decide)
  exact H.1 (fun i => String.append "boom " (toString i))

/-- C6 (amended): a dry-run call on a job whose resume resolves without
tailoring — a recorded resume_path, or no JD text and a fallback artifact
found — leaves the store exactly as it was, never invokes the adapter
(zero attempts, result independent of the adapter), and returns true.
When tailoring runs, its tailoring/ready transitions still happen before
the dry-run return. -/
theorem process_job_dry_run_noop (db : DBState) (job : Job)
    (tailorResult findResumeResult : Option String)
    (adapter : Nat → AttemptOutcome) (now : String)
    (hres : truthy job.resume_path = true
      ∨ (truthy job.jd_text = false ∧ truthy findResumeResult = true)) :
    process_job db job tailorResult findResumeResult adapter true now
      = (db, true, 0) := by
  have hrr : (resolve_resume db job tailorResult findResumeResult now).1 = db
      ∧ truthy (resolve_resume db job tailorResult findResumeResult now).2 = true := by
    unfold resolve_resume
    by_cases hrp : truthy job.resume_path = true
    · have hrp' : ¬ truthy job.resume_path = false := by
        rw [hrp]
        exact fun hc => by cases hc
      rw [if_neg (fun hc => hrp' hc.1), if_neg hrp']
      exact ⟨rfl, hrp⟩
    · rcases hres with hA | ⟨hB1, hB2⟩
      · exact absurd hA hrp
      · have hrp0 : truthy job.resume_path = false := by
          cases hv : truthy job.resume_path with
          | false => rfl
          | true => exact absurd hv hrp
        have hjd : ¬ (truthy job.resume_path = false ∧ truthy job.jd_text = true) := by
          intro hc
          rw [hB1] at hc
          cases hc.2
        rw [if_neg hjd, if_pos hrp0]
        exact ⟨rfl, hB2⟩
  obtain ⟨hd, ht⟩ := hrr
  have ht' : ¬ truthy (resolve_resume db job tailorResult findResumeResult now).2
      = false := by
    rw [ht]
    exact fun hc => by cases hc
  rw [process_job, if_neg ht', if_pos rfl, hd]

/-- C6 counterexample: a dry-run call on an approved job with no recorded
resume but a JD text and a successful tailoring collaborator returns true
yet transitions the job (to "ready"): the store is not untouched, so the
unrestricted "no status transition" claim fails. -/
theorem process_job_dry_run_noop_ce :
    (process_job db0 job0 (some "/tailored.pdf") none
        (fun _ => AttemptOutcome.res true none) true "t1").2 = (true, 0)
  ∧ (get_job (process_job db0 job0 (some "/tailored.pdf") none
        (fun _ => AttemptOutcome.res true none) true "t1").1 1).map Job.status
      = some "ready"
  ∧ job0.status = "approved" := by
  decide

/-- C6 witness: dry run on db1 (recorded resume) with an adapter that would
fail if consulted: the store is returned unchanged with result true. -/
theorem process_job_dry_run_noop_witness :
    process_job db1 job1 none none (fun _ => AttemptOutcome.exn "never called") true "t9"
      = (db1, true, 0) :=
  process_job_dry_run_noop db1 job1 none none
    (fun _ => AttemptOutcome.exn "never called") "t9" (Or.inl (by decide))

end Charon
